import Mathlib

/-
Verification development for the web-scrapping request handler
(src/base/web-scrapping/app.py).

The handler is a linear pipeline over two external services: a scraping
service (hyperbrowser) and an LLM inference service (huggingface /
fireworks-ai). Both services, together with the standard-library JSON
reader json.loads, are modelled as an environment of pure functions that
either return a value or fail with the stringified exception text, exactly
as a raised Python exception surfaces through the top-level catch-all.
Every outbound service call is recorded in a trace so that claims about
which calls happen, and in which order, are provable.
-/

set_option autoImplicit false

/-- JSON values as produced by json.loads: null, booleans, numbers
(integers; floats are outside the model), strings, arrays and objects.
Objects coming from json.loads have pairwise distinct keys. -/
inductive JValue where
  | null
  | bool (b : Bool)
  | num (n : Int)
  | str (s : String)
  | arr (elems : List JValue)
  | obj (fields : List (String × JValue))

/-- Dictionary lookup, dict.get(key): the value stored under the key, or
none when the key is absent. Objects from json.loads have unique keys, so
first-match lookup agrees with the Python dict. -/
def jget : List (String × JValue) → String → Option JValue
  | [], _ => none
  | (k, v) :: rest, key => if k = key then some v else jget rest key

/-- Truthiness of a JSON value under bool(), as used by the handler in
the test `if not website`. -/
def JValue.truthy : JValue → Bool
  | JValue.null => false
  | JValue.bool b => b
  | JValue.num n => decide (n ≠ 0)
  | JValue.str s => decide (s ≠ "")
  | JValue.arr elems => !elems.isEmpty
  | JValue.obj fields => !fields.isEmpty

/-- Truthiness of dict.get output: a missing key yields None, which is
falsy. -/
def truthyOpt : Option JValue → Bool
  | none => false
  | some v => v.truthy

/-- Parameters of one scraping-service call: StartScrapeJobParams with its
ScrapeOptions (url, formats, only_main_content). -/
structure ScrapeParams where
  url : String
  formats : List String
  onlyMainContent : Bool
deriving DecidableEq, Repr

/-- Result data of a scraping-service call: result.data.links and
result.data.markdown (markdown may be null). -/
structure ScrapeData where
  links : List String
  markdown : Option String
deriving DecidableEq, Repr

/-- One chat message sent to the LLM inference service. -/
structure ChatMessage where
  role : String
  content : String
deriving DecidableEq, Repr

/-- One chat-completion request: model identifier plus message list. -/
structure ChatRequest where
  model : String
  messages : List ChatMessage
deriving DecidableEq, Repr

/-- An outbound service call, as recorded in the trace. -/
inductive SCall where
  | scrape (p : ScrapeParams)
  | chat (r : ChatRequest)
deriving DecidableEq, Repr

/-- Whether a recorded call is an LLM chat-completion call. -/
def SCall.isChat : SCall → Bool
  | SCall.chat _ => true
  | SCall.scrape _ => false

/-- The external world: json.loads, the scraping client and the LLM
client. Each is a pure function; an error value is the stringified
exception str(e) that the raised Python exception carries to the
top-level catch-all. -/
structure Env where
  jsonLoads : String → Except String JValue
  scrape : ScrapeParams → Except String ScrapeData
  chatComplete : ChatRequest → Except String String

/-- The inbound event: event.get("body", "\x7b\x7d") reads the body key
of the event dict, so the model keeps just that key; none means the key
is absent. -/
structure Event where
  body : Option String

/-- An API-Gateway style response: statusCode, headers, and body. The
source serializes the body with json.dumps; the model keeps the JSON
object itself (json.dumps is injective on the distinct shapes used). -/
structure Response where
  statusCode : Nat
  headers : List (String × String)
  body : JValue

/-- Characters removed by str.strip() with no arguments (ASCII whitespace;
the rare non-ASCII Python whitespace is outside the model). -/
def isPySpace (c : Char) : Bool :=
  c = ' ' || c = '\t' || c = '\n' || c = '\r' || c = '\x0b' || c = '\x0c'

/-- str.strip(): drop leading and trailing whitespace. -/
def pyStrip (s : String) : String :=
  String.mk (((s.toList.dropWhile isPySpace).reverse.dropWhile isPySpace).reverse)

/-- Scrape parameters built by scrape_links: formats=["links"],
only_main_content=True. -/
def linksParams (url : String) : ScrapeParams :=
  { url := url, formats := ["links"], onlyMainContent := true }

/-- Scrape parameters built by scrape_page_content: formats=["markdown"],
only_main_content=True. -/
def markdownParams (url : String) : ScrapeParams :=
  { url := url, formats := ["markdown"], onlyMainContent := true }

/-- The chat request built by llm_calling: the fixed model identifier and
exactly one user-role message holding the prompt. -/
def chatRequest (prompt : String) : ChatRequest :=
  { model := "openai/gpt-oss-120b",
    messages := [{ role := "user", content := prompt }] }

/-- Prompt of LLM call 1 (structuring), lines 82-87 of app.py: fixed
instruction text followed by the aggregated content. -/
def prompt_structuring (all_content : String) : String :=
  "You are an expert information architect.\n" ++
  "Convert the unstructured data below into structured information.\n" ++
  "Do not remove any information, just present it in a structured format.\n\n" ++
  all_content

/-- The eleven fixed headings block shared by the second and third
prompts, each heading on its own line. -/
def headingsBlock : String :=
  "Objective:\n" ++
  "Mission:\n" ++
  "Vision:\n" ++
  "Business Concept:\n" ++
  "Target Market:\n" ++
  "Value Proposition:\n" ++
  "Business Name:\n" ++
  "Products or Services they offer:\n" ++
  "Who they currently sell to:\n" ++
  "Top Business Goals:\n" ++
  "Challenges:\n"

/-- Prompt of LLM call 2 (relevancy extraction), lines 91-108 of app.py:
the structured info of call 1 embedded in fixed instruction text. -/
def prompt_relevancy (structured_info : String) : String :=
  "You are an expert business and marketing analyst specializing in B2B strategy.\n" ++
  "Review the following structured company information:\n" ++ structured_info ++ "\n\n" ++
  "Extract only the information that is highly relevant for developing a B2B marketing strategy.\n" ++
  "Discard irrelevant or redundant details.\n\n" ++
  "Return the answer in the exact format below:\n\n" ++
  headingsBlock

/-- Prompt of LLM call 3 (finalization), lines 112-135 of app.py: the
relevant info of call 2 embedded in fixed instruction text. -/
def prompt_finalized (relevant_info : String) : String :=
  "You are a professional business document formatter.\n" ++
  "Take the following input data:\n" ++ relevant_info ++ "\n\n" ++
  "Remove any content between <think> and </think>.\n" ++
  "Present the information in a clean, professional document format.\n\n" ++
  "Required headings (exactly as written, in this order):\n" ++
  headingsBlock ++ "\n" ++
  "Notes:\n" ++
  "- Include only these headings and their corresponding information.\n" ++
  "- If no information is available for a heading, write \x27Not specified\x27.\n" ++
  "- Do not use symbols like #, **, or bullet points.\n" ++
  "- Do not add any extra commentary outside the headings.\n" ++
  "- Maintain proper spacing and readability."

/-- A pipeline computation: its result (or the raised exception text) and
the trace of outbound service calls it performed. -/
def Pipe (α : Type) : Type := Except String α × List SCall

/-- Sequencing of pipeline steps: a raised exception aborts the rest, and
traces concatenate in execution order. -/
def Pipe.bind {α β : Type} (m : Pipe α) (f : α → Pipe β) : Pipe β :=
  match m.1 with
  | Except.ok a => ((f a).1, m.2 ++ (f a).2)
  | Except.error e => (Except.error e, m.2)

/-- scrape_links (app.py lines 19-27): one scraping call with
formats=["links"], returning result.data.links. -/
def scrape_links (env : Env) (url : String) : Pipe (List String) :=
  ((env.scrape (linksParams url)).map (fun result => result.links),
   [SCall.scrape (linksParams url)])

/-- scrape_page_content (app.py lines 30-38): one scraping call with
formats=["markdown"], returning result.data.markdown or "" (the or
substitutes "" both for null and for an empty string). -/
def scrape_page_content (env : Env) (url : String) : Pipe String :=
  ((env.scrape (markdownParams url)).map (fun result => result.markdown.getD ""),
   [SCall.scrape (markdownParams url)])

/-- llm_calling (app.py lines 41-47): one chat-completion call with a
single user-role message, the response content stripped. -/
def llm_calling (env : Env) (prompt : String) : Pipe String :=
  ((env.chatComplete (chatRequest prompt)).map pyStrip,
   [SCall.chat (chatRequest prompt)])

/-- str.startswith: the argument is a textual prefix of the receiver,
expressed on the character lists of the two strings. -/
def pyStartswith (s pre : String) : Bool :=
  pre.toList.isPrefixOf s.toList

/-- The link filter of app.py line 73:
links = [link for link in links if link.startswith(website)]. -/
def linkFilterStep (links : List String) (website : String) : List String :=
  links.filter (fun link => pyStartswith link website)

/-- The content-accumulation loop of app.py lines 76-79: for each link,
scrape the page and append the boundary header and the page content to
the accumulator. -/
def contentLoop (env : Env) : List String → String → Pipe String
  | [], all_content => (Except.ok all_content, [])
  | link :: rest, all_content =>
    Pipe.bind (scrape_page_content env link) (fun page_content =>
      contentLoop env rest
        (all_content ++ "\n\n--- Page: " ++ link ++ " ---\n" ++ page_content))

/-- The body of the try-block after validation (app.py lines 71-136):
scrape links, filter them, accumulate content, then the three sequential
LLM calls; the value is the finalized output. -/
def pipeline (env : Env) (website : String) : Pipe String :=
  Pipe.bind (scrape_links env website) (fun links =>
  Pipe.bind (contentLoop env (linkFilterStep links website) "") (fun all_content =>
  Pipe.bind (llm_calling env (prompt_structuring all_content)) (fun structured_info =>
  Pipe.bind (llm_calling env (prompt_relevancy structured_info)) (fun relevant_info =>
  llm_calling env (prompt_finalized relevant_info)))))

/-- The 400 response of app.py lines 65-69. -/
def missingWebsiteResponse : Response :=
  { statusCode := 400,
    headers := [("Content-Type", "application/json")],
    body := JValue.obj [("error", JValue.str "Missing \x27website\x27 in request body")] }

/-- The 200 response of app.py lines 139-143. -/
def successResponse (finalized_output : String) : Response :=
  { statusCode := 200,
    headers := [("Content-Type", "application/json")],
    body := JValue.obj [("structured_info", JValue.str finalized_output)] }

/-- The 500 response of app.py lines 147-151, carrying str(e). -/
def errorResponse (e : String) : Response :=
  { statusCode := 500,
    headers := [("Content-Type", "application/json")],
    body := JValue.obj [("error", JValue.str e)] }

/-- Message of the AttributeError raised by body.get("website") when
json.loads returned a non-dict; text follows CPython. The obj case is
unreachable (dicts do have .get). -/
def getAttributeError : JValue → String
  | JValue.null => "\x27NoneType\x27 object has no attribute \x27get\x27"
  | JValue.bool _ => "\x27bool\x27 object has no attribute \x27get\x27"
  | JValue.num _ => "\x27int\x27 object has no attribute \x27get\x27"
  | JValue.str _ => "\x27str\x27 object has no attribute \x27get\x27"
  | JValue.arr _ => "\x27list\x27 object has no attribute \x27get\x27"
  | JValue.obj _ => ""

/-- Message of the exception raised by the scrape stage when the website
value is truthy but not a string: StartScrapeJobParams rejects a
non-string url before any outbound call (and link.startswith would
likewise raise a TypeError). The exact Python text is not modelled; the
handler only surfaces it through str(e). -/
def nonStringUrlError : String :=
  "validation error for StartScrapeJobParams: url must be a string"

/-- lambda_handler (app.py lines 50-151). The try-block parses the body
(missing body key defaults to "\x7b\x7d"), reads and truth-tests the
website field, and runs the pipeline; any raised exception reaches the
catch-all and becomes the 500 response. The second component is the trace
of outbound service calls made during the invocation. -/
def lambda_handler (env : Env) (event : Event) : Response × List SCall :=
  match env.jsonLoads (event.body.getD "\x7b\x7d") with
  | Except.error e => (errorResponse e, [])
  | Except.ok body =>
    match body with
    | JValue.obj fields =>
      let website := jget fields "website"
      if truthyOpt website then
        match website with
        | some (JValue.str w) =>
          match pipeline env w with
          | (Except.ok finalized_output, t) => (successResponse finalized_output, t)
          | (Except.error e, t) => (errorResponse e, t)
        | _ => (errorResponse nonStringUrlError, [])
      else
        (missingWebsiteResponse, [])
    | other => (errorResponse (getAttributeError other), [])

/-- One aggregated-content segment, following the spec words: a boundary
line of the form page-header followed by the page content. -/
def pageSegment (link content : String) : String :=
  "\n\n--- Page: " ++ link ++ " ---\n" ++ content

/-- Modelled from the spec words for content aggregation: the
concatenation, in link order, of one segment per link, where a null
markdown result contributes the empty string while the boundary header is
still emitted. Used as the specification side of the aggregation claim. -/
def aggregatedContentSpec (md : String → ScrapeData) : List String → String
  | [] => ""
  | link :: rest =>
    pageSegment link ((md link).markdown.getD "") ++ aggregatedContentSpec md rest

/-- Deterministic test double for the environment. The jsonLoads entries
fix the standard json.loads behavior on a handful of literal bodies (the
error text is the CPython message for an unparseable document); the
scraping entries describe three small scenario sites, including a page
with a null markdown body and a page whose scrape fails; the LLM always
answers with a fixed completion carrying surrounding whitespace. -/
def testEnv : Env :=
  { jsonLoads := fun s =>
      if s = "\x7b\x7d" then Except.ok (JValue.obj [])
      else if s = "[]" then Except.ok (JValue.arr [])
      else if s = "\x7b\"website\": \"https://a.test\"\x7d" then
        Except.ok (JValue.obj [("website", JValue.str "https://a.test")])
      else if s = "\x7b\"website\": \"https://f.test\"\x7d" then
        Except.ok (JValue.obj [("website", JValue.str "https://f.test")])
      else if s = "\x7b\"website\": \"https://e.test\"\x7d" then
        Except.ok (JValue.obj [("website", JValue.str "https://e.test")])
      else if s = "\x7b\"website\": 5\x7d" then
        Except.ok (JValue.obj [("website", JValue.num 5)])
      else if s = "\x7b\"website\": \"\"\x7d" then
        Except.ok (JValue.obj [("website", JValue.str "")])
      else Except.error "Expecting value: line 1 column 1 (char 0)",
    scrape := fun p =>
      if p = linksParams "https://a.test" then
        Except.ok { links := ["https://a.test/x", "https://other.test/z", "https://a.test/y"],
                    markdown := none }
      else if p = linksParams "https://f.test" then
        Except.ok { links := ["https://f.test/x", "https://f.test/y"], markdown := none }
      else if p = linksParams "https://e.test" then
        Except.ok { links := ["https://other.test/z"], markdown := none }
      else if p = markdownParams "https://a.test/x" then
        Except.ok { links := [], markdown := some " Page X content " }
      else if p = markdownParams "https://a.test/y" then
        Except.ok { links := [], markdown := none }
      else if p = markdownParams "https://f.test/x" then
        Except.ok { links := [], markdown := some "fx" }
      else if p = markdownParams "https://f.test/y" then
        Except.error "scrape failed: quota exceeded"
      else Except.error "unexpected scrape",
    chatComplete := fun _ => Except.ok " final document " }

/-- Scenario event: well-formed body with website https://a.test. -/
def eventA : Event := { body := some "\x7b\"website\": \"https://a.test\"\x7d" }

/-- Scenario event: website https://f.test, whose second page scrape
fails. -/
def eventF : Event := { body := some "\x7b\"website\": \"https://f.test\"\x7d" }

/-- Scenario event: website https://e.test, where no discovered link
passes the filter. -/
def eventE : Event := { body := some "\x7b\"website\": \"https://e.test\"\x7d" }

/-- Scenario event: website field present and truthy but a number. -/
def eventNum : Event := { body := some "\x7b\"website\": 5\x7d" }

/-- Scenario event: body parses to a JSON array, not an object. -/
def eventArr : Event := { body := some "[]" }

/-- Scenario event: body that json.loads rejects. -/
def eventBad : Event := { body := some "not json" }

/-- Scenario event: the event dict has no body key. -/
def eventNoBody : Event := { body := none }

/-- Scenario event: website field present but the empty string. -/
def eventEmptyStr : Event := { body := some "\x7b\"website\": \"\"\x7d" }

/-- Markdown results of the two filtered a.test pages, as a function, for
use with the aggregation theorem. -/
def mdA : String → ScrapeData := fun l =>
  if l = "https://a.test/x" then { links := [], markdown := some " Page X content " }
  else { links := [], markdown := none }

/-! Helper lemmas about the pipeline combinators and the handler paths. -/

theorem Pipe.bind_ok {α β : Type} (a : α) (t : List SCall) (f : α → Pipe β) :
    Pipe.bind (Except.ok a, t) f = ((f a).1, t ++ (f a).2) := rfl

theorem Pipe.bind_error {α β : Type} (e : String) (t : List SCall) (f : α → Pipe β) :
    Pipe.bind (Except.error e, t) f = (Except.error e, t) := rfl

theorem Pipe.bind_eq_ok {α β : Type} {m : Pipe α} {f : α → Pipe β} {b : β} {t : List SCall}
    (h : Pipe.bind m f = (Except.ok b, t)) :
    ∃ a t1 t2, m = (Except.ok a, t1) ∧ f a = (Except.ok b, t2) ∧ t = t1 ++ t2 := by
  rcases m with ⟨r, t1⟩
  cases r with
  | error e =>
    rw [Pipe.bind_error] at h
    exact absurd (congrArg Prod.fst h) (by simp)
  | ok a =>
    rw [Pipe.bind_ok] at h
    rcases hf : f a with ⟨r2, t2⟩
    rw [hf] at h
    have h1 : r2 = Except.ok b := congrArg Prod.fst h
    have h2 : t1 ++ t2 = t := congrArg Prod.snd h
    exact ⟨a, t1, t2, rfl, by rw [hf, h1], h2.symm⟩

theorem except_map_eq_ok {α β : Type} {f : α → β} {x : Except String α} {b : β}
    (h : Except.map f x = Except.ok b) : ∃ a, x = Except.ok a ∧ b = f a := by
  cases x with
  | error e => simp [Except.map] at h
  | ok a =>
    refine ⟨a, rfl, ?_⟩
    simpa [Except.map] using h.symm

theorem contentLoop_no_chat (env : Env) :
    ∀ (links : List String) (acc : String),
      ((contentLoop env links acc).2).filter SCall.isChat = [] := by
  intro links
  induction links with
  | nil => intro acc; rfl
  | cons link rest ih =>
    intro acc
    cases hs : env.scrape (markdownParams link) with
    | ok d =>
      simp only [contentLoop, scrape_page_content, hs, Except.map, Pipe.bind_ok]
      simp [SCall.isChat, ih]
    | error e =>
      simp only [contentLoop, scrape_page_content, hs, Except.map, Pipe.bind_error]
      simp [SCall.isChat]

theorem handler_parse_err_eq (env : Env) (event : Event) (e : String)
    (hj : env.jsonLoads (event.body.getD "\x7b\x7d") = Except.error e) :
    lambda_handler env event = (errorResponse e, []) := by
  unfold lambda_handler
  rw [hj]

theorem handler_not_dict_eq (env : Env) (event : Event) (v : JValue)
    (hj : env.jsonLoads (event.body.getD "\x7b\x7d") = Except.ok v)
    (hv : ∀ fields, v ≠ JValue.obj fields) :
    lambda_handler env event = (errorResponse (getAttributeError v), []) := by
  unfold lambda_handler
  rw [hj]
  cases v with
  | obj fields => exact absurd rfl (hv fields)
  | null => rfl
  | bool b => rfl
  | num n => rfl
  | str s => rfl
  | arr elems => rfl

theorem handler_falsy_eq (env : Env) (event : Event) (fields : List (String × JValue))
    (hj : env.jsonLoads (event.body.getD "\x7b\x7d") = Except.ok (JValue.obj fields))
    (ht : truthyOpt (jget fields "website") = false) :
    lambda_handler env event = (missingWebsiteResponse, []) := by
  unfold lambda_handler
  rw [hj]
  simp [ht]

theorem handler_nonstring_eq (env : Env) (event : Event) (fields : List (String × JValue))
    (v : JValue)
    (hj : env.jsonLoads (event.body.getD "\x7b\x7d") = Except.ok (JValue.obj fields))
    (hw : jget fields "website" = some v)
    (ht : v.truthy = true)
    (hns : ∀ s, v ≠ JValue.str s) :
    lambda_handler env event = (errorResponse nonStringUrlError, []) := by
  unfold lambda_handler
  rw [hj]
  cases v with
  | str s => exact absurd rfl (hns s)
  | null => simp [JValue.truthy] at ht
  | bool b => simp [hw, truthyOpt, ht]
  | num n => simp [hw, truthyOpt, ht]
  | arr elems => simp [hw, truthyOpt, ht]
  | obj fs => simp [hw, truthyOpt, ht]

theorem handler_run_ok_eq (env : Env) (event : Event) (fields : List (String × JValue))
    (w out : String) (t : List SCall)
    (hj : env.jsonLoads (event.body.getD "\x7b\x7d") = Except.ok (JValue.obj fields))
    (hw : jget fields "website" = some (JValue.str w))
    (hne : w ≠ "")
    (hp : pipeline env w = (Except.ok out, t)) :
    lambda_handler env event = (successResponse out, t) := by
  unfold lambda_handler
  rw [hj]
  simp [hw, truthyOpt, JValue.truthy, hne, hp]

theorem handler_run_error_eq (env : Env) (event : Event) (fields : List (String × JValue))
    (w e : String) (t : List SCall)
    (hj : env.jsonLoads (event.body.getD "\x7b\x7d") = Except.ok (JValue.obj fields))
    (hw : jget fields "website" = some (JValue.str w))
    (hne : w ≠ "")
    (hp : pipeline env w = (Except.error e, t)) :
    lambda_handler env event = (errorResponse e, t) := by
  unfold lambda_handler
  rw [hj]
  simp [hw, truthyOpt, JValue.truthy, hne, hp]

theorem contentLoop_agg (env : Env) (md : String → ScrapeData) :
    ∀ (links : List String),
      (∀ l ∈ links, env.scrape (markdownParams l) = Except.ok (md l)) →
      ∀ acc : String,
        contentLoop env links acc =
          (Except.ok (acc ++ aggregatedContentSpec md links),
           links.map (fun l => SCall.scrape (markdownParams l))) := by
  intro links
  induction links with
  | nil =>
    intro _ acc
    simp [contentLoop, aggregatedContentSpec]
  | cons link rest ih =>
    intro h acc
    have hl : env.scrape (markdownParams link) = Except.ok (md link) :=
      h link (List.mem_cons_self _ _)
    have hr := ih (fun l hm => h l (List.mem_cons_of_mem _ hm))
    simp only [contentLoop, scrape_page_content, hl, Except.map, Pipe.bind_ok, hr]
    simp [aggregatedContentSpec, pageSegment, String.append_assoc]

theorem pipeline_ok_decomp (env : Env) (w out : String) (tr : List SCall)
    (hp : pipeline env w = (Except.ok out, tr)) :
    ∃ content r1 r2 r3,
      env.chatComplete (chatRequest (prompt_structuring content)) = Except.ok r1 ∧
      env.chatComplete (chatRequest (prompt_relevancy (pyStrip r1))) = Except.ok r2 ∧
      env.chatComplete (chatRequest (prompt_finalized (pyStrip r2))) = Except.ok r3 ∧
      tr.filter SCall.isChat =
        [SCall.chat (chatRequest (prompt_structuring content)),
         SCall.chat (chatRequest (prompt_relevancy (pyStrip r1))),
         SCall.chat (chatRequest (prompt_finalized (pyStrip r2)))] ∧
      out = pyStrip r3 := by
  unfold pipeline at hp
  obtain ⟨links, t1, t2, h1, h2, htr⟩ := Pipe.bind_eq_ok hp
  unfold scrape_links at h1
  have ht1 : [SCall.scrape (linksParams w)] = t1 := congrArg Prod.snd h1
  obtain ⟨content, tc, t3, hc, h3, ht2⟩ := Pipe.bind_eq_ok h2
  have hcfil : tc.filter SCall.isChat = [] := by
    have hnc := contentLoop_no_chat env (linkFilterStep links w) ""
    rw [hc] at hnc
    exact hnc
  obtain ⟨s1, ta, tb, hl1, h4, ht3⟩ := Pipe.bind_eq_ok h3
  unfold llm_calling at hl1
  have hta : [SCall.chat (chatRequest (prompt_structuring content))] = ta :=
    congrArg Prod.snd hl1
  have hm1 : (env.chatComplete (chatRequest (prompt_structuring content))).map pyStrip
      = Except.ok s1 := congrArg Prod.fst hl1
  obtain ⟨r1, hr1, hs1⟩ := except_map_eq_ok hm1
  obtain ⟨s2, td, te, hl2, h5, ht4⟩ := Pipe.bind_eq_ok h4
  unfold llm_calling at hl2
  have htd : [SCall.chat (chatRequest (prompt_relevancy s1))] = td :=
    congrArg Prod.snd hl2
  have hm2 : (env.chatComplete (chatRequest (prompt_relevancy s1))).map pyStrip
      = Except.ok s2 := congrArg Prod.fst hl2
  obtain ⟨r2, hr2, hs2⟩ := except_map_eq_ok hm2
  unfold llm_calling at h5
  have hte : [SCall.chat (chatRequest (prompt_finalized s2))] = (Prod.snd (α := Except String String) (Except.ok out, te)) :=
    congrArg Prod.snd h5
  have hm3 : (env.chatComplete (chatRequest (prompt_finalized s2))).map pyStrip
      = Except.ok out := congrArg Prod.fst h5
  obtain ⟨r3, hr3, hout⟩ := except_map_eq_ok hm3
  subst hs1
  subst hs2
  refine ⟨content, r1, r2, r3, hr1, hr2, hr3, ?_, hout⟩
  subst htr
  subst ht2
  subst ht3
  subst ht4
  rw [← ht1, ← hta, ← htd]
  have hte2 : te = [SCall.chat (chatRequest (prompt_finalized (pyStrip r2)))] := hte.symm
  subst hte2
  simp [List.filter_append, hcfil, SCall.isChat]

/-! Claim theorems. -/

/-- C1: on the successful path the handler makes exactly three LLM calls
in order (structuring, relevancy extraction, finalization), each a single
user-role message embedding the previous stage output in its fixed
instruction template, each result stripped, and the 200 body carries the
third stripped output verbatim under structured_info. -/
theorem C1_success_three_llm_calls (env : Env) (event : Event)
    (resp : Response) (t : List SCall)
    (h : lambda_handler env event = (resp, t))
    (h200 : resp.statusCode = 200) :
    ∃ content r1 r2 r3,
      env.chatComplete (chatRequest (prompt_structuring content)) = Except.ok r1 ∧
      env.chatComplete (chatRequest (prompt_relevancy (pyStrip r1))) = Except.ok r2 ∧
      env.chatComplete (chatRequest (prompt_finalized (pyStrip r2))) = Except.ok r3 ∧
      t.filter SCall.isChat =
        [SCall.chat (chatRequest (prompt_structuring content)),
         SCall.chat (chatRequest (prompt_relevancy (pyStrip r1))),
         SCall.chat (chatRequest (prompt_finalized (pyStrip r2)))] ∧
      resp = successResponse (pyStrip r3) := by
  cases hj : env.jsonLoads (event.body.getD "\x7b\x7d") with
  | error e =>
    rw [handler_parse_err_eq env event e hj] at h
    injection h with hr ht
    rw [← hr] at h200
    exact absurd h200 (by simp [errorResponse])
  | ok v =>
    cases v with
    | obj fields =>
      cases ht : truthyOpt (jget fields "website") with
      | false =>
        rw [handler_falsy_eq env event fields hj ht] at h
        injection h with hr ht2
        rw [← hr] at h200
        exact absurd h200 (by simp [missingWebsiteResponse])
      | true =>
        cases hw : jget fields "website" with
        | none => rw [hw] at ht; simp [truthyOpt] at ht
        | some v2 =>
          have hv2 : v2.truthy = true := by
            rw [hw] at ht; simpa [truthyOpt] using ht
          cases v2 with
          | str w =>
            have hne : w ≠ "" := by simpa [JValue.truthy] using hv2
            rcases hpl : pipeline env w with ⟨r, tr⟩
            cases r with
            | error e =>
              rw [handler_run_error_eq env event fields w e tr hj hw hne hpl] at h
              injection h with hr ht2
              rw [← hr] at h200
              exact absurd h200 (by simp [errorResponse])
            | ok out =>
              rw [handler_run_ok_eq env event fields w out tr hj hw hne hpl] at h
              injection h with hr ht2
              obtain ⟨content, r1, r2, r3, hc1, hc2, hc3, hfil, hout⟩ :=
                pipeline_ok_decomp env w out tr hpl
              refine ⟨content, r1, r2, r3, hc1, hc2, hc3, ?_, ?_⟩
              · rw [← ht2]; exact hfil
              · rw [← hr, hout]
          | null => simp [JValue.truthy] at hv2
          | bool b =>
            rw [handler_nonstring_eq env event fields (JValue.bool b) hj hw hv2
              (fun _ hh => JValue.noConfusion hh)] at h
            injection h with hr ht2
            rw [← hr] at h200
            exact absurd h200 (by simp [errorResponse])
          | num n =>
            rw [handler_nonstring_eq env event fields (JValue.num n) hj hw hv2
              (fun _ hh => JValue.noConfusion hh)] at h
            injection h with hr ht2
            rw [← hr] at h200
            exact absurd h200 (by simp [errorResponse])
          | arr elems =>
            rw [handler_nonstring_eq env event fields (JValue.arr elems) hj hw hv2
              (fun _ hh => JValue.noConfusion hh)] at h
            injection h with hr ht2
            rw [← hr] at h200
            exact absurd h200 (by simp [errorResponse])
          | obj fs =>
            rw [handler_nonstring_eq env event fields (JValue.obj fs) hj hw hv2
              (fun _ hh => JValue.noConfusion hh)] at h
            injection h with hr ht2
            rw [← hr] at h200
            exact absurd h200 (by simp [errorResponse])
    | null =>
      rw [handler_not_dict_eq env event JValue.null hj
        (fun _ hh => JValue.noConfusion hh)] at h
      injection h with hr ht2
      rw [← hr] at h200
      exact absurd h200 (by simp [errorResponse])
    | bool b =>
      rw [handler_not_dict_eq env event (JValue.bool b) hj
        (fun _ hh => JValue.noConfusion hh)] at h
      injection h with hr ht2
      rw [← hr] at h200
      exact absurd h200 (by simp [errorResponse])
    | num n =>
      rw [handler_not_dict_eq env event (JValue.num n) hj
        (fun _ hh => JValue.noConfusion hh)] at h
      injection h with hr ht2
      rw [← hr] at h200
      exact absurd h200 (by simp [errorResponse])
    | str s =>
      rw [handler_not_dict_eq env event (JValue.str s) hj
        (fun _ hh => JValue.noConfusion hh)] at h
      injection h with hr ht2
      rw [← hr] at h200
      exact absurd h200 (by simp [errorResponse])
    | arr elems =>
      rw [handler_not_dict_eq env event (JValue.arr elems) hj
        (fun _ hh => JValue.noConfusion hh)] at h
      injection h with hr ht2
      rw [← hr] at h200
      exact absurd h200 (by simp [errorResponse])

/-- Witness for C1 on the a.test scenario: two filtered pages, three chat
calls in order, 200 with the stripped third completion. -/
theorem C1_success_three_llm_calls_witness :
    ∃ content r1 r2 r3,
      testEnv.chatComplete (chatRequest (prompt_structuring content)) = Except.ok r1 ∧
      testEnv.chatComplete (chatRequest (prompt_relevancy (pyStrip r1))) = Except.ok r2 ∧
      testEnv.chatComplete (chatRequest (prompt_finalized (pyStrip r2))) = Except.ok r3 ∧
      List.filter SCall.isChat
        [SCall.scrape (linksParams "https://a.test"),
         SCall.scrape (markdownParams "https://a.test/x"),
         SCall.scrape (markdownParams "https://a.test/y"),
         SCall.chat (chatRequest (prompt_structuring
           "\n\n--- Page: https://a.test/x ---\n Page X content \n\n--- Page: https://a.test/y ---\n")),
         SCall.chat (chatRequest (prompt_relevancy "final document")),
         SCall.chat (chatRequest (prompt_finalized "final document"))] =
        [SCall.chat (chatRequest (prompt_structuring content)),
         SCall.chat (chatRequest (prompt_relevancy (pyStrip r1))),
         SCall.chat (chatRequest (prompt_finalized (pyStrip r2)))] ∧
      successResponse "final document" = successResponse (pyStrip r3) :=
  C1_success_three_llm_calls testEnv eventA (successResponse "final document")
    [SCall.scrape (linksParams "https://a.test"),
     SCall.scrape (markdownParams "https://a.test/x"),
     SCall.scrape (markdownParams "https://a.test/y"),
     SCall.chat (chatRequest (prompt_structuring
       "\n\n--- Page: https://a.test/x ---\n Page X content \n\n--- Page: https://a.test/y ---\n")),
     SCall.chat (chatRequest (prompt_relevancy "final document")),
     SCall.chat (chatRequest (prompt_finalized "final document"))]
    rfl rfl

/-- C2 (amended): when the parsed JSON body is a JSON object whose
website field is absent, null, or the empty string, the handler returns
exactly the 400 missing-website response and makes no outbound call. The
restriction to object bodies is forced: a non-object parsed body raises
AttributeError on .get and yields a 500 instead. -/
theorem C2_missing_website_400 (env : Env) (event : Event)
    (fields : List (String × JValue))
    (hj : env.jsonLoads (event.body.getD "\x7b\x7d") = Except.ok (JValue.obj fields))
    (hmiss : jget fields "website" = none ∨ jget fields "website" = some JValue.null ∨
             jget fields "website" = some (JValue.str "")) :
    lambda_handler env event = (missingWebsiteResponse, []) := by
  have ht : truthyOpt (jget fields "website") = false := by
    rcases hmiss with hm | hm | hm <;> rw [hm] <;> rfl
  exact handler_falsy_eq env event fields hj ht

/-- Witness for C2 (amended) at a body whose website field is the empty
string. -/
theorem C2_missing_website_400_witness :
    lambda_handler testEnv eventEmptyStr = (missingWebsiteResponse, []) :=
  C2_missing_website_400 testEnv eventEmptyStr [("website", JValue.str "")] rfl
    (Or.inr (Or.inr rfl))

/-- Counterexample to C2 as stated: the body "[]" parses to a JSON array,
which certainly lacks the website field, yet the handler returns the 500
AttributeError response and not the 400 missing-website response. -/
theorem C2_counterexample :
    testEnv.jsonLoads "[]" = Except.ok (JValue.arr []) ∧
    lambda_handler testEnv eventArr =
      (errorResponse "\x27list\x27 object has no attribute \x27get\x27", []) ∧
    lambda_handler testEnv eventArr ≠ (missingWebsiteResponse, []) := by
  refine ⟨rfl, rfl, ?_⟩
  intro hq
  exact absurd (congrArg (fun p => p.1.statusCode) hq) (by decide)

/-- C3 (amended): a body that json.loads rejects makes the handler return
the 500 response carrying the stringified parse exception, with no
outbound call; it is not folded into the 400 missing-field response. -/
theorem C3_malformed_body_500 (env : Env) (event : Event) (e : String)
    (hj : env.jsonLoads (event.body.getD "\x7b\x7d") = Except.error e) :
    lambda_handler env event = (errorResponse e, []) :=
  handler_parse_err_eq env event e hj

/-- Witness for C3 (amended) at the unparseable body of eventBad. -/
theorem C3_malformed_body_500_witness :
    lambda_handler testEnv eventBad =
      (errorResponse "Expecting value: line 1 column 1 (char 0)", []) :=
  C3_malformed_body_500 testEnv eventBad "Expecting value: line 1 column 1 (char 0)" rfl

/-- Counterexample to C3 as stated: on the unparseable body "not json"
the handler response is the 500 parse-error response, not the 400
missing-website response the claim promises. -/
theorem C3_counterexample :
    testEnv.jsonLoads "not json" = Except.error "Expecting value: line 1 column 1 (char 0)" ∧
    (lambda_handler testEnv eventBad).1.statusCode = 500 ∧
    lambda_handler testEnv eventBad ≠ (missingWebsiteResponse, []) := by
  refine ⟨rfl, rfl, ?_⟩
  intro hq
  exact absurd (congrArg (fun p => p.1.statusCode) hq) (by decide)

/-- C4: link filtering is the plain textual prefix test of the
comprehension in app.py line 73: it keeps exactly the links whose text
starts with the website string, is order-preserving (a sublist of the
input), and deduplicates nothing (multiplicities of kept links are
unchanged). -/
theorem C4_link_filter_prefix_test (links : List String) (website : String) :
    linkFilterStep links website = links.filter (fun l => pyStartswith l website) ∧
    (linkFilterStep links website).Sublist links ∧
    (∀ l, l ∈ linkFilterStep links website ↔
      l ∈ links ∧ website.toList.IsPrefix l.toList) ∧
    (∀ l, (linkFilterStep links website).count l =
      if pyStartswith l website then links.count l else 0) := by
  refine ⟨rfl, List.filter_sublist links, ?_, ?_⟩
  · intro l
    simp [linkFilterStep, List.mem_filter, pyStartswith, List.isPrefixOf_iff_prefix]
  · intro l
    by_cases hl : pyStartswith l website = true
    · rw [if_pos hl]
      exact List.count_filter hl
    · rw [if_neg hl]
      refine List.count_eq_zero.mpr ?_
      intro hmem
      simp only [linkFilterStep] at hmem
      have hp := List.of_mem_filter hmem
      exact hl hp

/-- C5: the aggregated content is the concatenation, in link order, of
one boundary segment per link; a null or empty markdown body contributes
the empty string while the boundary header is still emitted, and the loop
performs exactly one markdown scrape per link. -/
theorem C5_content_aggregation (env : Env) (md : String → ScrapeData)
    (links : List String)
    (h : ∀ l ∈ links, env.scrape (markdownParams l) = Except.ok (md l)) :
    contentLoop env links "" =
      (Except.ok (aggregatedContentSpec md links),
       links.map (fun l => SCall.scrape (markdownParams l))) := by
  have hagg := contentLoop_agg env md links h ""
  simpa using hagg

/-- Witness for C5 on two pages, the second with a null markdown body:
its boundary header is still present, followed by nothing. -/
theorem C5_content_aggregation_witness :
    contentLoop testEnv ["https://a.test/x", "https://a.test/y"] "" =
      (Except.ok
        "\n\n--- Page: https://a.test/x ---\n Page X content \n\n--- Page: https://a.test/y ---\n",
       [SCall.scrape (markdownParams "https://a.test/x"),
        SCall.scrape (markdownParams "https://a.test/y")]) :=
  C5_content_aggregation testEnv mdA ["https://a.test/x", "https://a.test/y"]
    (by intro l hl; fin_cases hl <;> rfl)

/-- C6: any upstream failure surfaces as the 500 response whose error
field is exactly the stringified exception; the body holds nothing else,
so pages fetched before the failure are discarded. -/
theorem C6_upstream_failure_500 (env : Env) (event : Event)
    (fields : List (String × JValue)) (w e : String) (t : List SCall)
    (hj : env.jsonLoads (event.body.getD "\x7b\x7d") = Except.ok (JValue.obj fields))
    (hw : jget fields "website" = some (JValue.str w))
    (hne : w ≠ "")
    (hfail : pipeline env w = (Except.error e, t)) :
    lambda_handler env event = (errorResponse e, t) :=
  handler_run_error_eq env event fields w e t hj hw hne hfail

/-- Witness for C6: the second page scrape of f.test fails after the
first page was already fetched; the response is only the 500 error and
the fetched first page does not appear anywhere in it. -/
theorem C6_upstream_failure_500_witness :
    lambda_handler testEnv eventF =
      (errorResponse "scrape failed: quota exceeded",
       [SCall.scrape (linksParams "https://f.test"),
        SCall.scrape (markdownParams "https://f.test/x"),
        SCall.scrape (markdownParams "https://f.test/y")]) :=
  C6_upstream_failure_500 testEnv eventF [("website", JValue.str "https://f.test")]
    "https://f.test" "scrape failed: quota exceeded"
    [SCall.scrape (linksParams "https://f.test"),
     SCall.scrape (markdownParams "https://f.test/x"),
     SCall.scrape (markdownParams "https://f.test/y")]
    rfl rfl (by decide) rfl

/-- C7: on every execution path the response body is one JSON object
holding either a structured_info key or an error key, never both and
never neither. -/
theorem C7_body_single_key_shape (env : Env) (event : Event) :
    ∃ fields, (lambda_handler env event).1.body = JValue.obj fields ∧
      (((jget fields "structured_info").isSome = true ∧ jget fields "error" = none) ∨
       (jget fields "structured_info" = none ∧ (jget fields "error").isSome = true)) := by
  cases hj : env.jsonLoads (event.body.getD "\x7b\x7d") with
  | error e =>
    rw [handler_parse_err_eq env event e hj]
    exact ⟨[("error", JValue.str e)], rfl, Or.inr ⟨rfl, rfl⟩⟩
  | ok v =>
    cases v with
    | obj fields =>
      cases ht : truthyOpt (jget fields "website") with
      | false =>
        rw [handler_falsy_eq env event fields hj ht]
        exact ⟨[("error", JValue.str "Missing \x27website\x27 in request body")],
          rfl, Or.inr ⟨rfl, rfl⟩⟩
      | true =>
        cases hw : jget fields "website" with
        | none => rw [hw] at ht; simp [truthyOpt] at ht
        | some v2 =>
          have hv2 : v2.truthy = true := by
            rw [hw] at ht; simpa [truthyOpt] using ht
          cases v2 with
          | str w =>
            have hne : w ≠ "" := by simpa [JValue.truthy] using hv2
            rcases hpl : pipeline env w with ⟨r, tr⟩
            cases r with
            | ok out =>
              rw [handler_run_ok_eq env event fields w out tr hj hw hne hpl]
              exact ⟨[("structured_info", JValue.str out)], rfl, Or.inl ⟨rfl, rfl⟩⟩
            | error e =>
              rw [handler_run_error_eq env event fields w e tr hj hw hne hpl]
              exact ⟨[("error", JValue.str e)], rfl, Or.inr ⟨rfl, rfl⟩⟩
          | null => simp [JValue.truthy] at hv2
          | bool b =>
            rw [handler_nonstring_eq env event fields (JValue.bool b) hj hw hv2
              (fun _ hh => JValue.noConfusion hh)]
            exact ⟨[("error", JValue.str nonStringUrlError)], rfl, Or.inr ⟨rfl, rfl⟩⟩
          | num n =>
            rw [handler_nonstring_eq env event fields (JValue.num n) hj hw hv2
              (fun _ hh => JValue.noConfusion hh)]
            exact ⟨[("error", JValue.str nonStringUrlError)], rfl, Or.inr ⟨rfl, rfl⟩⟩
          | arr elems =>
            rw [handler_nonstring_eq env event fields (JValue.arr elems) hj hw hv2
              (fun _ hh => JValue.noConfusion hh)]
            exact ⟨[("error", JValue.str nonStringUrlError)], rfl, Or.inr ⟨rfl, rfl⟩⟩
          | obj fs =>
            rw [handler_nonstring_eq env event fields (JValue.obj fs) hj hw hv2
              (fun _ hh => JValue.noConfusion hh)]
            exact ⟨[("error", JValue.str nonStringUrlError)], rfl, Or.inr ⟨rfl, rfl⟩⟩
    | null =>
      rw [handler_not_dict_eq env event JValue.null hj (fun _ hh => JValue.noConfusion hh)]
      exact ⟨[("error", JValue.str (getAttributeError JValue.null))], rfl, Or.inr ⟨rfl, rfl⟩⟩
    | bool b =>
      rw [handler_not_dict_eq env event (JValue.bool b) hj (fun _ hh => JValue.noConfusion hh)]
      exact ⟨[("error", JValue.str (getAttributeError (JValue.bool b)))], rfl, Or.inr ⟨rfl, rfl⟩⟩
    | num n =>
      rw [handler_not_dict_eq env event (JValue.num n) hj (fun _ hh => JValue.noConfusion hh)]
      exact ⟨[("error", JValue.str (getAttributeError (JValue.num n)))], rfl, Or.inr ⟨rfl, rfl⟩⟩
    | str s =>
      rw [handler_not_dict_eq env event (JValue.str s) hj (fun _ hh => JValue.noConfusion hh)]
      exact ⟨[("error", JValue.str (getAttributeError (JValue.str s)))], rfl, Or.inr ⟨rfl, rfl⟩⟩
    | arr elems =>
      rw [handler_not_dict_eq env event (JValue.arr elems) hj (fun _ hh => JValue.noConfusion hh)]
      exact ⟨[("error", JValue.str (getAttributeError (JValue.arr elems)))], rfl, Or.inr ⟨rfl, rfl⟩⟩

/-- C8: an event dict without a body key has "\x7b\x7d" substituted, and
(with json.loads parsing "\x7b\x7d" to the empty object, as the standard
library does) the handler returns the 400 missing-website response with
no outbound call, rather than raising or returning a 500. -/
theorem C8_absent_body_defaults_400 (env : Env) (event : Event)
    (hb : event.body = none)
    (hj : env.jsonLoads "\x7b\x7d" = Except.ok (JValue.obj [])) :
    lambda_handler env event = (missingWebsiteResponse, []) := by
  have hj2 : env.jsonLoads (event.body.getD "\x7b\x7d") = Except.ok (JValue.obj []) := by
    rw [hb]
    exact hj
  exact handler_falsy_eq env event [] hj2 rfl

/-- Witness for C8 at the bodyless event. -/
theorem C8_absent_body_defaults_400_witness :
    lambda_handler testEnv eventNoBody = (missingWebsiteResponse, []) :=
  C8_absent_body_defaults_400 testEnv eventNoBody rfl rfl

/-- C9: when no discovered link passes the filter the aggregated content
is empty and the pipeline still proceeds: all three LLM calls run on
prompts embedding the empty content and, when they succeed, the handler
returns the 200 response. -/
theorem C9_empty_filter_still_200 (env : Env) (event : Event)
    (fields : List (String × JValue)) (w : String) (d : ScrapeData)
    (r1 r2 r3 : String)
    (hj : env.jsonLoads (event.body.getD "\x7b\x7d") = Except.ok (JValue.obj fields))
    (hw : jget fields "website" = some (JValue.str w))
    (hne : w ≠ "")
    (hlinks : env.scrape (linksParams w) = Except.ok d)
    (hfilter : linkFilterStep d.links w = [])
    (h1 : env.chatComplete (chatRequest (prompt_structuring "")) = Except.ok r1)
    (h2 : env.chatComplete (chatRequest (prompt_relevancy (pyStrip r1))) = Except.ok r2)
    (h3 : env.chatComplete (chatRequest (prompt_finalized (pyStrip r2))) = Except.ok r3) :
    lambda_handler env event =
      (successResponse (pyStrip r3),
       [SCall.scrape (linksParams w),
        SCall.chat (chatRequest (prompt_structuring "")),
        SCall.chat (chatRequest (prompt_relevancy (pyStrip r1))),
        SCall.chat (chatRequest (prompt_finalized (pyStrip r2)))]) := by
  have hp : pipeline env w =
      (Except.ok (pyStrip r3),
       [SCall.scrape (linksParams w),
        SCall.chat (chatRequest (prompt_structuring "")),
        SCall.chat (chatRequest (prompt_relevancy (pyStrip r1))),
        SCall.chat (chatRequest (prompt_finalized (pyStrip r2)))]) := by
    unfold pipeline scrape_links llm_calling
    rw [hlinks]
    simp [Except.map, Pipe.bind_ok, hfilter, contentLoop, h1, h2, h3]
  exact handler_run_ok_eq env event fields w (pyStrip r3) _ hj hw hne hp

/-- Witness for C9 on the e.test scenario, where the single discovered
link is off-site and the filter output is empty. -/
theorem C9_empty_filter_still_200_witness :
    lambda_handler testEnv eventE =
      (successResponse (pyStrip " final document "),
       [SCall.scrape (linksParams "https://e.test"),
        SCall.chat (chatRequest (prompt_structuring "")),
        SCall.chat (chatRequest (prompt_relevancy (pyStrip " final document "))),
        SCall.chat (chatRequest (prompt_finalized (pyStrip " final document ")))]) :=
  C9_empty_filter_still_200 testEnv eventE [("website", JValue.str "https://e.test")]
    "https://e.test" { links := ["https://other.test/z"], markdown := none }
    " final document " " final document " " final document "
    rfl rfl (by decide) rfl rfl rfl rfl rfl

/-- C10: validation tests only truthiness, so a present, truthy,
non-string website passes validation and the resulting failure in the
scrape stage is reported as a 500 error response, never as the 400
missing-field response. -/
theorem C10_truthy_nonstring_website_500 (env : Env) (event : Event)
    (fields : List (String × JValue)) (v : JValue)
    (hj : env.jsonLoads (event.body.getD "\x7b\x7d") = Except.ok (JValue.obj fields))
    (hw : jget fields "website" = some v)
    (ht : v.truthy = true)
    (hns : ∀ s, v ≠ JValue.str s) :
    (lambda_handler env event).1.statusCode = 500 ∧
    (lambda_handler env event).1 ≠ missingWebsiteResponse ∧
    ∃ e, (lambda_handler env event).1.body = JValue.obj [("error", JValue.str e)] := by
  rw [handler_nonstring_eq env event fields v hj hw ht hns]
  refine ⟨rfl, ?_, ⟨nonStringUrlError, rfl⟩⟩
  intro hq
  exact absurd (congrArg Response.statusCode hq) (by decide)

/-- Witness for C10 at a numeric website value. -/
theorem C10_truthy_nonstring_website_500_witness :
    (lambda_handler testEnv eventNum).1.statusCode = 500 ∧
    (lambda_handler testEnv eventNum).1 ≠ missingWebsiteResponse ∧
    ∃ e, (lambda_handler testEnv eventNum).1.body = JValue.obj [("error", JValue.str e)] :=
  C10_truthy_nonstring_website_500 testEnv eventNum [("website", JValue.num 5)]
    (JValue.num 5) rfl rfl (by decide) (fun _ hh => JValue.noConfusion hh)
